import Mathlib

/-!
Shallow embedding of the conversational RAG pipeline of the RAG_DevKaluri
repository (src/langchain_helper.py and src/api_server.py), together with
the behaviour of the LangChain / LangGraph library calls exactly as this
program uses them:

* `create_history_aware_retriever` (LangChain): a branch that sends the raw
  input straight to the retriever when `chat_history` is empty (falsy), and
  otherwise pipes the reformulation prompt through the llm and feeds the
  llm's output to the retriever.
* `create_retrieval_chain` + `create_stuff_documents_chain` (LangChain):
  retrieve documents for the (possibly reformulated) query, join their page
  contents, substitute them for the context slot of the answer prompt, call
  the llm, and return both the retrieved context and the answer.
* the one-node `StateGraph` compiled with a `MemorySaver` checkpointer
  (LangGraph): `invoke` with a `thread_id` loads that thread's checkpoint
  (empty on first use), applies the input update, runs `call_model`, and
  commits the node's state update through the channel reducers only when the
  node returns; a node failure propagates and leaves the committed
  `chat_history` untouched.
* `add_messages` (LangGraph): the reducer on the `chat_history` channel.
  `call_model` only ever emits freshly constructed messages without ids, to
  which the reducer assigns fresh UUIDs before appending, so its
  replace-on-id-match branch never fires in this program and the reducer
  acts as list append.

The external llm and retriever services are opaque parameters: an llm maps a
filled prompt to a string or a failure, a retriever maps a query string to a
list of chunk texts or a failure.  Timestamps and logging of the HTTP layer
are omitted: no claim mentions them.
-/

namespace DevRAG

/-- Role tag of a chat message: human turn or AI turn. -/
inductive Role
  | human
  | ai
deriving DecidableEq

/-- A chat message: a role tag and immutable text content (LangChain
`HumanMessage` / `AIMessage` as used by `call_model`, which never sets ids). -/
structure Message where
  role : Role
  content : String
deriving DecidableEq

/-- Constructor mirroring LangChain `HumanMessage(text)`. -/
def HumanMessage (s : String) : Message :=
  { role := Role.human, content := s }

/-- Constructor mirroring LangChain `AIMessage(text)`. -/
def AIMessage (s : String) : Message :=
  { role := Role.ai, content := s }

/-- Failure of an external call (llm or retriever): carries the exception
message `str(e)`. -/
structure PipelineError where
  msg : String
deriving DecidableEq

/-- A filled chat prompt, the result of `ChatPromptTemplate.from_messages`
applied to a system string, the `chat_history` placeholder and the human
input slot. -/
structure Prompt where
  system : String
  chat_history : List Message
  human : String
deriving DecidableEq

/-- The generative model service: a filled prompt to completion text, or a
failure (timeout, rate limit, safety refusal). -/
abbrev Llm := Prompt → Except PipelineError String

/-- The vector-store retriever `db.as_retriever(search_type="similarity")`:
a query string to the ranked list of retrieved chunk texts (page contents),
or a failure.  An empty index or zero matches yields `.ok []`. -/
abbrev Retriever := String → Except PipelineError (List String)

/-- The system prompt of `contextualize_question` in src/langchain_helper.py
(Python triple-quoted literal with backslash line continuations). -/
def question_reformulation_prompt : String :=
  "\n    Given a chat history and the latest user question     which might reference context in the chat history, formulate a standalone question     which can be understood without the chat history. Do NOT answer the question,     just reformulate it if needed and otherwise return it as is."

/-- The reformulation prompt of `contextualize_question` filled with a chat
history and the latest user input. -/
def reformulation_prompt (history : List Message) (input : String) : Prompt :=
  { system := question_reformulation_prompt, chat_history := history, human := input }

/-- The query string handed to the vector-store retriever by the
history-aware retriever built in `contextualize_question`.  LangChain's
`create_history_aware_retriever` is a `RunnableBranch`: when `chat_history`
is absent or empty the raw input is passed through unchanged (no llm call);
otherwise the reformulation prompt is sent to the llm and its output is the
retrieval query. -/
def retrieval_query (llm : Llm) (history : List Message) (input : String) :
    Except PipelineError String :=
  if history.isEmpty then Except.ok input
  else llm (reformulation_prompt history input)

/-- The history-aware retriever returned by `contextualize_question`:
computes the retrieval query and runs the similarity search on it. -/
def history_aware_retriever (llm : Llm) (retr : Retriever)
    (history : List Message) (input : String) :
    Except PipelineError (List String) := do
  let q ← retrieval_query llm history input
  retr q

/-- Chunk formatting of `create_stuff_documents_chain`: page contents joined
by the default document separator, two newlines. -/
def format_docs (chunks : List String) : String :=
  String.intercalate "\n\n" chunks

/-- The system prompt of `answer_question` with the retrieved context
substituted for its context slot (Python triple-quoted literal with
backslash line continuations; the context placeholder is the final line). -/
def answer_question_prompt (context : String) : String :=
  " \n    Use the following pieces of retrieved context to answer the question.     Use three to seven sentences maximum and keep the answer concise, while still giving depth.\n    " ++ context

/-- The answer-synthesis prompt of `answer_question` filled with the
retrieved chunks, the chat history and the user input. -/
def synthesis_prompt (chunks : List String) (history : List Message)
    (input : String) : Prompt :=
  { system := answer_question_prompt (format_docs chunks),
    chat_history := history, human := input }

/-- Output of one `rag_chain.invoke`: the retrieved context documents and the
synthesized answer (keys `context` and `answer` of the result dict). -/
structure RagOutput where
  context : List String
  answer : String
deriving DecidableEq

/-- The `rag_chain` built by `answer_question` via LangChain's
`create_retrieval_chain`: assign `context` from the history-aware retriever,
then assign `answer` from the stuff-documents chain run on the context, the
chat history and the raw input. -/
def rag_chain (llm : Llm) (retr : Retriever) (history : List Message)
    (input : String) : Except PipelineError RagOutput := do
  let docs ← history_aware_retriever llm retr history input
  let ans ← llm (synthesis_prompt docs history input)
  Except.ok { context := docs, answer := ans }

/-- The graph `State` of src/langchain_helper.py.  The source annotates
`context : str`, but TypedDict annotations are unenforced and `call_model`
stores the retrieved document list there, so the field is embedded with the
value it actually holds. -/
structure State where
  input : String
  chat_history : List Message
  context : List String
  answer : String
deriving DecidableEq

/-- The state update a node returns for the channels it writes
(the dict returned by `call_model`). -/
structure StateUpdate where
  chat_history : List Message
  context : List String
  answer : String
deriving DecidableEq

/-- LangGraph's `add_messages` reducer on the `chat_history` channel,
restricted to the way this program drives it: `call_model` emits only
freshly constructed id-less messages, which the reducer tags with fresh
UUIDs and appends, so no replace-on-id-match occurs and the reducer is list
append. -/
def add_messages (left right : List Message) : List Message :=
  left ++ right

/-- The single graph node `call_model` of src/langchain_helper.py: run the
rag chain on the current state and return the state update appending the
human input and the AI answer to the chat history.  A rag-chain failure
propagates out of the node. -/
def call_model (llm : Llm) (retr : Retriever) (state : State) :
    Except PipelineError StateUpdate := do
  let response ← rag_chain llm retr state.chat_history state.input
  Except.ok
    { chat_history := [HumanMessage state.input, AIMessage response.answer],
      context := response.context,
      answer := response.answer }

/-- The `MemorySaver` checkpoint store: thread id to latest checkpointed
graph state, absent for threads never seen.  In-memory, process lifetime. -/
abbrev Store := String → Option State

/-- Channel defaults of a thread with no checkpoint. -/
def empty_state : State :=
  { input := "", chat_history := [], context := [], answer := "" }

/-- Point update of the checkpoint store at one thread id. -/
def store_put (store : Store) (thread_id : String) (s : State) : Store :=
  fun t => if t = thread_id then some s else store t

/-- The committed chat history of a thread: empty when the thread has no
checkpoint, matching the channel default `invoke` would load. -/
def thread_history (store : Store) (t : String) : List Message :=
  ((store t).getD empty_state).chat_history

/-- The state the node receives: the thread's checkpoint (channel defaults
on first use) with the input update applied. -/
def loaded_state (store : Store) (thread_id : String) (input : String) : State :=
  { input := input,
    chat_history := ((store thread_id).getD empty_state).chat_history,
    context := ((store thread_id).getD empty_state).context,
    answer := ((store thread_id).getD empty_state).answer }

/-- The state committed at the end of a successful super-step: the node's
update folded into the loaded state through the channel reducers. -/
def committed_state (state : State) (upd : StateUpdate) : State :=
  { input := state.input,
    chat_history := add_messages state.chat_history upd.chat_history,
    context := upd.context,
    answer := upd.answer }

/-- One `app.invoke` of the compiled one-node graph with the `MemorySaver`
checkpointer, under the config naming a `thread_id`: load the thread's
checkpoint (channel defaults on first use), apply the input update
(checkpointed even when the node later fails), run `call_model`, and on
success commit the node's update through the channel reducers
(`add_messages` on `chat_history`, last-value elsewhere) and return the
final state; on node failure the error propagates and no node update is
committed. -/
def app_invoke (llm : Llm) (retr : Retriever) (store : Store)
    (thread_id : String) (input : String) :
    Except PipelineError State × Store :=
  let state := loaded_state store thread_id input
  let store_in := store_put store thread_id state
  match call_model llm retr state with
  | Except.error e => (Except.error e, store_in)
  | Except.ok upd =>
      (Except.ok (committed_state state upd),
       store_put store_in thread_id (committed_state state upd))

/-- `execute_user_query` of src/langchain_helper.py: invokes the compiled
app with the hardcoded config `thread_id = "abc123"` and returns
`result["answer"]`.  The caller supplies only the query text; no thread id
parameter exists. -/
def execute_user_query (llm : Llm) (retr : Retriever) (store : Store)
    (query_text : String) : Except PipelineError String × Store :=
  let r := app_invoke llm retr store "abc123" query_text
  (r.1.map State.answer, r.2)

/-- Python `str.isspace` characters stripped by `str.strip()`. -/
def is_py_space (c : Char) : Bool :=
  c = ' ' || c = '\t' || c = '\n' || c = '\x0d' || c = '\x0b' || c = '\x0c'

/-- Python `s.strip()`: drop leading and trailing whitespace. -/
def py_strip (s : String) : String :=
  String.mk (((s.toList.dropWhile is_py_space).reverse.dropWhile is_py_space).reverse)

/-- The pydantic `QueryRequest` of src/api_server.py: the question text and
an optional session id (described as for conversation tracking). -/
structure QueryRequest where
  question : String
  session_id : Option String
deriving DecidableEq

/-- The pydantic `QueryResponse` of src/api_server.py, without the wall-clock
`timestamp` field (no claim mentions it). -/
structure QueryResponse where
  answer : String
  question : String
  session_id : Option String
  status : String
deriving DecidableEq

/-- A FastAPI `HTTPException`: status code and detail string. -/
structure HTTPException where
  status_code : Nat
  detail : String
deriving DecidableEq

/-- The `/chat` handler `chat_with_dev`: reject a question whose stripped
text is empty with 400 before calling the pipeline; call
`execute_user_query`; a falsy (empty) answer raises 500; a pipeline
exception is caught and re-raised as 500 with the exception text; otherwise
build the success response echoing question and session id. -/
def chat_with_dev (llm : Llm) (retr : Retriever) (store : Store)
    (request : QueryRequest) : Except HTTPException QueryResponse × Store :=
  if py_strip request.question = "" then
    (Except.error { status_code := 400, detail := "Question cannot be empty" },
     store)
  else
    match execute_user_query llm retr store request.question with
    | (Except.error e, store') =>
        (Except.error { status_code := 500,
                        detail := "Internal server error: " ++ e.msg },
         store')
    | (Except.ok answer, store') =>
        if answer = "" then
          (Except.error { status_code := 500,
                          detail := "Failed to generate response" },
           store')
        else
          (Except.ok { answer := answer, question := request.question,
                       session_id := request.session_id, status := "success" },
           store')

/-- The `/chat` route as seen by a caller: pydantic validation of the
request model (`min_length=1, max_length=1000` on `question`, rejected with
422 before the handler body runs) followed by `chat_with_dev`. -/
def chat_endpoint (llm : Llm) (retr : Retriever) (store : Store)
    (question : String) (session_id : Option String) :
    Except HTTPException QueryResponse × Store :=
  if question.length < 1 ∨ question.length > 1000 then
    (Except.error { status_code := 422,
                    detail := "String should have at least 1 character" },
     store)
  else
    chat_with_dev llm retr store { question := question, session_id := session_id }

/-- Result dict of the `/chatbot` endpoint: a failure dict with
`success: False`, an error string and a user message, or a success dict with
the question, the answer and the echoed session id (timestamp and debug
details omitted: no claim mentions them). -/
inductive ChatbotResult
  | failure (error : String) (message : String)
  | success (question : String) (answer : String) (session_id : Option String)
deriving DecidableEq

/-- The `/chatbot` handler `chatbot_endpoint`: take question and session id
from the JSON body when present, else from the query parameters; reject a
missing, empty or whitespace-only question before calling the pipeline; call
`execute_user_query`; a falsy answer or a caught exception yields a failure
dict; otherwise the clean success dict. -/
def chatbot_endpoint (llm : Llm) (retr : Retriever) (store : Store)
    (question₀ : Option String) (session_id₀ : Option String)
    (request_body : Option QueryRequest) : ChatbotResult × Store :=
  let question := match request_body with
    | some rb => some rb.question
    | none => question₀
  let session_id := match request_body with
    | some rb => rb.session_id
    | none => session_id₀
  match question with
  | none =>
      (ChatbotResult.failure "Question is required"
        "Please provide a question to ask about Dev", store)
  | some q =>
      if q = "" ∨ py_strip q = "" then
        (ChatbotResult.failure "Question is required"
          "Please provide a question to ask about Dev", store)
      else
        match execute_user_query llm retr store q with
        | (Except.error _, store') =>
            (ChatbotResult.failure "Internal server error"
              "Something went wrong. Please try again later.", store')
        | (Except.ok answer, store') =>
            if answer = "" then
              (ChatbotResult.failure "No response generated"
                "Unable to generate a response. Please try again.", store')
            else
              (ChatbotResult.success q answer session_id, store')

/-- One iteration of the `/chat/batch` loop body: run the pipeline on the
item, building a status-"success" response from the answer, or catching a
per-item pipeline exception as a status-"error" response carrying the
exception text in the answer field. -/
def batch_item (llm : Llm) (retr : Retriever) (req : QueryRequest)
    (store : Store) : QueryResponse × Store :=
  match execute_user_query llm retr store req.question with
  | (Except.ok answer, store') =>
      ({ answer := answer, question := req.question,
         session_id := req.session_id, status := "success" : QueryResponse },
       store')
  | (Except.error e, store') =>
      ({ answer := "Error processing question: " ++ e.msg,
         question := req.question, session_id := req.session_id,
         status := "error" : QueryResponse },
       store')

/-- The `/chat/batch` loop: process the remaining requests in order,
threading the checkpoint store; a per-item failure is recorded in that
item's response and the loop continues with the next item. -/
def batch_loop (llm : Llm) (retr : Retriever) :
    List QueryRequest → Store → List QueryResponse × Store
  | [], store => ([], store)
  | req :: rest, store =>
      let item := batch_item llm retr req store
      let tail := batch_loop llm retr rest item.2
      (item.1 :: tail.1, tail.2)

/-- The `/chat/batch` handler `batch_chat`: reject a batch of more than 10
requests with 400 before processing any item; otherwise run the per-item
loop and return one response per request. -/
def batch_chat (llm : Llm) (retr : Retriever) (store : Store)
    (requests : List QueryRequest) :
    Except HTTPException (List QueryResponse) × Store :=
  if requests.length > 10 then
    (Except.error { status_code := 400,
                    detail := "Batch size cannot exceed 10 questions" },
     store)
  else
    let r := batch_loop llm retr requests store
    (Except.ok r.1, r.2)

/-- Turn sequences on one graph thread: run `app_invoke` once per input in
order, threading the checkpoint store, and collect each turn's outcome
(`result["answer"]` on success, the propagated error on failure). -/
def run_turns (llm : Llm) (retr : Retriever) (thread : String) :
    List String → Store → List (Except PipelineError String) × Store
  | [], store => ([], store)
  | q :: qs, store =>
      let r := app_invoke llm retr store thread q
      let rest := run_turns llm retr thread qs r.2
      (r.1.map State.answer :: rest.1, rest.2)

/-- A chat history alternating Human then AI, pairwise from the front. -/
def alternating : List Message → Bool
  | [] => true
  | { role := Role.human, content := _ } :: { role := Role.ai, content := _ } :: rest =>
      alternating rest
  | _ => false

/-! Helper lemmas about the checkpoint store and the state machine. -/

lemma store_put_self (store : Store) (t : String) (s : State) :
    store_put store t s t = some s := by
  simp [store_put]

lemma store_put_other (store : Store) (t t' : String) (s : State)
    (h : t' ≠ t) : store_put store t s t' = store t' := by
  simp [store_put, h]

lemma loaded_state_history (store : Store) (t q : String) :
    (loaded_state store t q).chat_history = thread_history store t := rfl

lemma call_model_ok_shape (llm : Llm) (retr : Retriever) (state : State)
    (upd : StateUpdate) (h : call_model llm retr state = Except.ok upd) :
    upd.chat_history = [HumanMessage state.input, AIMessage upd.answer] := by
  unfold call_model at h
  cases hr : rag_chain llm retr state.chat_history state.input with
  | error e => rw [hr] at h; exact absurd h (by simp [Bind.bind, Except.bind])
  | ok response =>
      rw [hr] at h
      simp only [Bind.bind, Except.bind, Except.ok.injEq] at h
      rw [← h]

/-- Case analysis of one `app.invoke`: either the node failed and only the
input checkpoint was written, or the node succeeded and the committed state
was checkpointed. -/
lemma app_invoke_spec (llm : Llm) (retr : Retriever) (store : Store)
    (thread q : String) :
    (∃ e, call_model llm retr (loaded_state store thread q) = Except.error e
       ∧ app_invoke llm retr store thread q
         = (Except.error e, store_put store thread (loaded_state store thread q)))
    ∨ (∃ upd, call_model llm retr (loaded_state store thread q) = Except.ok upd
       ∧ app_invoke llm retr store thread q
         = (Except.ok (committed_state (loaded_state store thread q) upd),
            store_put (store_put store thread (loaded_state store thread q)) thread
              (committed_state (loaded_state store thread q) upd))) := by
  cases hc : call_model llm retr (loaded_state store thread q) with
  | error e => exact Or.inl ⟨e, rfl, by simp [app_invoke, hc]⟩
  | ok upd => exact Or.inr ⟨upd, rfl, by simp [app_invoke, hc]⟩

lemma app_invoke_error_store (llm : Llm) (retr : Retriever) (store : Store)
    (thread q : String) (e : PipelineError)
    (h : (app_invoke llm retr store thread q).1 = Except.error e) :
    ∀ t, thread_history (app_invoke llm retr store thread q).2 t
      = thread_history store t := by
  intro t
  rcases app_invoke_spec llm retr store thread q with ⟨e', _, heq⟩ | ⟨upd, _, heq⟩
  · rw [heq]
    by_cases ht : t = thread
    · subst ht
      simp [thread_history, store_put, loaded_state]
    · simp [thread_history, store_put, ht]
  · rw [heq] at h
    simp at h

lemma app_invoke_ok_store (llm : Llm) (retr : Retriever) (store : Store)
    (thread q : String) (st : State)
    (h : (app_invoke llm retr store thread q).1 = Except.ok st) :
    thread_history (app_invoke llm retr store thread q).2 thread
      = thread_history store thread ++ [HumanMessage q, AIMessage st.answer]
    ∧ ∀ t, t ≠ thread → (app_invoke llm retr store thread q).2 t = store t := by
  rcases app_invoke_spec llm retr store thread q with ⟨e, _, heq⟩ | ⟨upd, hc, heq⟩
  · rw [heq] at h
    simp at h
  · have hst : st = committed_state (loaded_state store thread q) upd := by
      rw [heq] at h
      simpa using h.symm
    have hshape := call_model_ok_shape llm retr (loaded_state store thread q) upd hc
    subst hst
    constructor
    · rw [heq]
      simp [thread_history, store_put, committed_state, add_messages, hshape,
        loaded_state]
    · intro t ht
      rw [heq]
      simp [store_put, ht]

lemma run_turns_length (llm : Llm) (retr : Retriever) (thread : String) :
    ∀ (inputs : List String) (store : Store),
      (run_turns llm retr thread inputs store).1.length = inputs.length
  | [], _ => rfl
  | q :: qs, store => by
      simp [run_turns, run_turns_length llm retr thread qs]

/-- The committed history of a fully successful turn sequence is the
pre-existing history followed by one (Human input, AI answer) pair per
turn, in turn order. -/
lemma run_turns_history (llm : Llm) (retr : Retriever) (thread : String) :
    ∀ (inputs answers : List String) (store : Store),
      (run_turns llm retr thread inputs store).1 = answers.map Except.ok →
      thread_history (run_turns llm retr thread inputs store).2 thread
        = thread_history store thread
          ++ (inputs.zip answers).flatMap
              (fun p => [HumanMessage p.1, AIMessage p.2])
  | [], answers, store, h => by
      cases answers with
      | nil => simp [run_turns]
      | cons a as => simp [run_turns] at h
  | q :: qs, answers, store, h => by
      cases answers with
      | nil => simp [run_turns] at h
      | cons a as =>
          simp only [run_turns, List.map_cons] at h
          injection h with h1 h2
          cases hr : (app_invoke llm retr store thread q).1 with
          | error e => rw [hr] at h1; simp [Except.map] at h1
          | ok st =>
              rw [hr] at h1
              have ha : st.answer = a := by
                simpa [Except.map] using h1
              obtain ⟨hh, -⟩ := app_invoke_ok_store llm retr store thread q st hr
              have ih := run_turns_history llm retr thread qs as
                (app_invoke llm retr store thread q).2 h2
              simp only [run_turns]
              rw [ih, hh, ha]
              simp [List.append_assoc]

lemma length_flatMap_pairs (l : List (String × String)) :
    (l.flatMap (fun p => [HumanMessage p.1, AIMessage p.2])).length
      = 2 * l.length := by
  induction l with
  | nil => rfl
  | cons p rest ih =>
      simp only [List.flatMap_cons, List.length_append, List.length_cons,
        List.length_nil, ih]
      omega

lemma alternating_flatMap :
    ∀ (l : List (String × String)),
      alternating (l.flatMap (fun p => [HumanMessage p.1, AIMessage p.2])) = true
  | [] => rfl
  | p :: rest => by
      simpa [List.flatMap_cons, HumanMessage, AIMessage, alternating]
        using alternating_flatMap rest

/-! Claim theorems. -/

/-- C2: for every graph thread starting with empty history and every
sequence of n successful turns on it, the committed chat history after turn
n is exactly the turns' (HumanMessage input, AIMessage answer) pairs in turn
order: 2n messages, alternating Human then AI, whose last two entries are
the final turn's HumanMessage(input) followed by AIMessage(answer). -/
theorem chat_history_two_per_turn (llm : Llm) (retr : Retriever)
    (thread : String) (inputs answers : List String) (store : Store)
    (h0 : thread_history store thread = [])
    (h : (run_turns llm retr thread inputs store).1 = answers.map Except.ok) :
    thread_history (run_turns llm retr thread inputs store).2 thread
      = (inputs.zip answers).flatMap (fun p => [HumanMessage p.1, AIMessage p.2])
    ∧ (thread_history (run_turns llm retr thread inputs store).2 thread).length
        = 2 * inputs.length
    ∧ alternating
        (thread_history (run_turns llm retr thread inputs store).2 thread) = true
    ∧ ∀ (qs : List String) (q : String) (ans : List String) (a : String),
        inputs = qs ++ [q] → answers = ans ++ [a] →
        ∃ front, thread_history (run_turns llm retr thread inputs store).2 thread
          = front ++ [HumanMessage q, AIMessage a] := by
  have hlen : answers.length = inputs.length := by
    have hl := run_turns_length llm retr thread inputs store
    rw [h] at hl
    simpa using hl
  have hmain := run_turns_history llm retr thread inputs answers store h
  rw [h0, List.nil_append] at hmain
  refine ⟨hmain, ?_, ?_, ?_⟩
  · rw [hmain, length_flatMap_pairs, List.length_zip, hlen, min_self]
  · rw [hmain]
    exact alternating_flatMap _
  · intro qs q ans a hq ha
    subst hq
    subst ha
    have hlen' : qs.length = ans.length := by
      simp only [List.length_append, List.length_cons, List.length_nil] at hlen
      omega
    refine ⟨(qs.zip ans).flatMap (fun p => [HumanMessage p.1, AIMessage p.2]), ?_⟩
    rw [hmain, List.zip_append hlen', List.flatMap_append]
    simp

/-- Witness for `chat_history_two_per_turn`: two successful turns on a
fresh thread leave exactly the two (Human, AI) pairs, in order. -/
theorem chat_history_two_per_turn_witness :
    thread_history
      (run_turns (fun _ => Except.ok "A") (fun _ => Except.ok []) "t1"
        ["q1", "q2"] (fun _ => none)).2 "t1"
      = [HumanMessage "q1", AIMessage "A", HumanMessage "q2", AIMessage "A"] := by
  have h := chat_history_two_per_turn (fun _ => Except.ok "A")
    (fun _ => Except.ok []) "t1" ["q1", "q2"] ["A", "A"] (fun _ => none)
    (by rfl) (by rfl)
  exact h.1.trans (by rfl)

/-- C3: a turn whose pipeline fails at any stage commits nothing: every
thread's persisted chat history after the failed `app.invoke` is exactly its
pre-turn value, the history update being committed only when the node (all
three stages) completes. -/
theorem failed_turn_preserves_history (llm : Llm) (retr : Retriever)
    (store : Store) (thread q : String) (e : PipelineError)
    (h : (app_invoke llm retr store thread q).1 = Except.error e) :
    ∀ t, thread_history (app_invoke llm retr store thread q).2 t
      = thread_history store t :=
  app_invoke_error_store llm retr store thread q e h

/-- Witness for `failed_turn_preserves_history`: a synthesis failure leaves
the fresh thread's history empty. -/
theorem failed_turn_preserves_history_witness :
    thread_history
      (app_invoke (fun _ => Except.error { msg := "timeout" })
        (fun _ => Except.ok []) (fun _ => none) "t1" "q1").2 "t1"
      = thread_history (fun _ => none : Store) "t1" :=
  failed_turn_preserves_history (fun _ => Except.error { msg := "timeout" })
    (fun _ => Except.ok []) (fun _ => none) "t1" "q1" { msg := "timeout" }
    (by rfl) "t1"

/-- C4: contextualization on an empty chat history returns the input
unchanged as the retrieval query, realised by the zero-history
short-circuit of the history-aware retriever: the raw input goes straight
to the similarity search and the result does not depend on the
reformulation model at all. -/
theorem contextualize_empty_history (llm llm' : Llm) (retr : Retriever)
    (input : String) :
    retrieval_query llm [] input = Except.ok input
    ∧ history_aware_retriever llm retr [] input = retr input
    ∧ retrieval_query llm [] input = retrieval_query llm' [] input :=
  ⟨rfl, rfl, rfl⟩

/-- C7: with non-empty chat history the string handed to the similarity
search is the standalone question produced by the contextualization stage
(the llm's output on the reformulation prompt), not the caller's raw
input. -/
theorem retrieval_uses_standalone_question (llm : Llm) (retr : Retriever)
    (history : List Message) (input sq : String)
    (hne : history ≠ [])
    (hq : llm (reformulation_prompt history input) = Except.ok sq) :
    retrieval_query llm history input = Except.ok sq
    ∧ history_aware_retriever llm retr history input = retr sq := by
  have hemp : history.isEmpty = false := by
    cases history with
    | nil => exact absurd rfl hne
    | cons m l => rfl
  have h1 : retrieval_query llm history input = Except.ok sq := by
    rw [retrieval_query, hemp]
    simpa using hq
  refine ⟨h1, ?_⟩
  rw [history_aware_retriever, h1]
  rfl

/-- Witness for `retrieval_uses_standalone_question`: a one-message history
routes the llm's reformulation through to the retriever. -/
theorem retrieval_uses_standalone_question_witness :
    retrieval_query (fun _ => Except.ok "standalone")
      [HumanMessage "hi"] "it?" = Except.ok "standalone"
    ∧ history_aware_retriever (fun _ => Except.ok "standalone")
        (fun s => Except.ok [s]) [HumanMessage "hi"] "it?"
      = Except.ok ["standalone"] :=
  retrieval_uses_standalone_question (fun _ => Except.ok "standalone")
    (fun s => Except.ok [s]) [HumanMessage "hi"] "it?" "standalone"
    (by simp) (by rfl)

/-- C8: a turn in which the similarity search returns the empty chunk list
raises no error at the retrieval stage: the empty list flows into the
synthesis prompt, the synthesis llm is still invoked on it, and the turn
returns and commits the synthesized answer normally. -/
theorem empty_retrieval_graceful (llm : Llm) (retr : Retriever)
    (store : Store) (thread input sq a : String)
    (hq : retrieval_query llm (thread_history store thread) input
      = Except.ok sq)
    (hr : retr sq = Except.ok [])
    (ha : llm (synthesis_prompt [] (thread_history store thread) input)
      = Except.ok a) :
    rag_chain llm retr (thread_history store thread) input
      = Except.ok { context := [], answer := a }
    ∧ ((app_invoke llm retr store thread input).1).map State.answer
        = Except.ok a := by
  have hrag : rag_chain llm retr (thread_history store thread) input
      = Except.ok { context := [], answer := a } := by
    rw [rag_chain, history_aware_retriever, hq]
    show (do
      let docs ← retr sq
      let ans ← llm (synthesis_prompt docs (thread_history store thread) input)
      Except.ok { context := docs, answer := ans : RagOutput })
      = Except.ok { context := [], answer := a }
    rw [hr]
    show (do
      let ans ← llm (synthesis_prompt [] (thread_history store thread) input)
      Except.ok { context := [], answer := ans : RagOutput })
      = Except.ok { context := [], answer := a }
    rw [ha]
    rfl
  have hcm : call_model llm retr (loaded_state store thread input)
      = Except.ok { chat_history := [HumanMessage input, AIMessage a],
                    context := [], answer := a } := by
    rw [call_model]
    have hl : (loaded_state store thread input).chat_history
        = thread_history store thread := rfl
    have hi : (loaded_state store thread input).input = input := rfl
    rw [hl, hi, hrag]
    rfl
  refine ⟨hrag, ?_⟩
  rcases app_invoke_spec llm retr store thread input with
    ⟨e, hc, heq⟩ | ⟨upd, hc, heq⟩
  · rw [hcm] at hc
    exact absurd hc (by simp)
  · rw [hcm] at hc
    have hupd : upd = { chat_history := [HumanMessage input, AIMessage a],
                        context := [], answer := a } := by
      simpa using hc.symm
    rw [heq, hupd]
    rfl

/-- Witness for `empty_retrieval_graceful`: an always-empty retriever still
yields a normal answer on a fresh thread. -/
theorem empty_retrieval_graceful_witness :
    ((app_invoke (fun _ => Except.ok "no context found")
        (fun _ => Except.ok []) (fun _ => none) "t1" "q1").1).map State.answer
      = Except.ok "no context found" :=
  (empty_retrieval_graceful (fun _ => Except.ok "no context found")
    (fun _ => Except.ok []) (fun _ => none) "t1" "q1" "q1" "no context found"
    (by rfl) (by rfl) (by rfl)).2

/-- C10: on a /chat request that passes validation, an empty (falsy) answer
from the pipeline is turned into a 500 internal-server-error, so every
successful /chat response carries a non-empty answer and status "success". -/
theorem chat_success_nonempty_answer (llm : Llm) (retr : Retriever)
    (store : Store) (request : QueryRequest)
    (hv : py_strip request.question ≠ "") :
    ((execute_user_query llm retr store request.question).1 = Except.ok "" →
      (chat_with_dev llm retr store request).1
        = Except.error { status_code := 500,
                         detail := "Failed to generate response" })
    ∧ ∀ resp, (chat_with_dev llm retr store request).1 = Except.ok resp →
        resp.answer ≠ "" ∧ resp.status = "success" := by
  rcases hp : execute_user_query llm retr store request.question with ⟨r, s⟩
  constructor
  · intro he
    have he' : r = Except.ok "" := he
    subst he'
    simp [chat_with_dev, hv, hp]
  · intro resp hok
    simp only [chat_with_dev, hv, if_neg hv, hp] at hok
    cases r with
    | error e => simp at hok
    | ok answer =>
        by_cases hans : answer = ""
        · simp [hans] at hok
        · simp [hans] at hok
          constructor
          · rw [← hok]
            exact hans
          · rw [← hok]

/-- Witness for `chat_success_nonempty_answer`: an empty synthesized answer
is reported as a 500. -/
theorem chat_success_nonempty_answer_witness :
    (chat_with_dev (fun _ => Except.ok "") (fun _ => Except.ok [])
      (fun _ => none) { question := "hi", session_id := none }).1
      = Except.error { status_code := 500,
                       detail := "Failed to generate response" } :=
  (chat_success_nonempty_answer (fun _ => Except.ok "")
    (fun _ => Except.ok []) (fun _ => none)
    { question := "hi", session_id := none } (by decide)).1 (by rfl)

lemma batch_item_fields (llm : Llm) (retr : Retriever) (req : QueryRequest)
    (store : Store) :
    (batch_item llm retr req store).1.question = req.question
    ∧ (batch_item llm retr req store).1.session_id = req.session_id
    ∧ (batch_item llm retr req store).2
        = (execute_user_query llm retr store req.question).2
    ∧ (batch_item llm retr req store).1.status
        = (match (execute_user_query llm retr store req.question).1 with
           | Except.ok _ => "success"
           | Except.error _ => "error") := by
  rcases hp : execute_user_query llm retr store req.question with ⟨r, s⟩
  cases r <;> simp [batch_item, hp]

lemma batch_loop_cons (llm : Llm) (retr : Retriever) (req : QueryRequest)
    (rest : List QueryRequest) (store : Store) :
    batch_loop llm retr (req :: rest) store
      = ((batch_item llm retr req store).1
           :: (batch_loop llm retr rest (batch_item llm retr req store).2).1,
         (batch_loop llm retr rest (batch_item llm retr req store).2).2) := rfl

lemma batch_loop_length (llm : Llm) (retr : Retriever) :
    ∀ (reqs : List QueryRequest) (store : Store),
      (batch_loop llm retr reqs store).1.length = reqs.length
  | [], _ => rfl
  | req :: rest, store => by
      rw [batch_loop_cons]
      simp [batch_loop_length llm retr rest]

/-- The i-th batch response is the item computed on the store the first i
items left behind. -/
lemma batch_loop_get (llm : Llm) (retr : Retriever) :
    ∀ (reqs : List QueryRequest) (store : Store) (i : Nat)
      (req0 : QueryRequest), reqs[i]? = some req0 →
      (batch_loop llm retr reqs store).1[i]?
        = some (batch_item llm retr req0
            (batch_loop llm retr (reqs.take i) store).2).1
  | [], _, i, req0, h => by simp at h
  | req :: rest, store, 0, req0, h => by
      simp only [List.getElem?_cons_zero, Option.some.injEq] at h
      subst h
      rw [batch_loop_cons]
      simp [batch_loop]
  | req :: rest, store, i + 1, req0, h => by
      simp only [List.getElem?_cons_succ] at h
      have ih := batch_loop_get llm retr rest
        (batch_item llm retr req store).2 i req0 h
      rw [batch_loop_cons]
      simp only [List.getElem?_cons_succ]
      rw [ih]
      simp [List.take_succ_cons, batch_loop_cons]

/-- C5: a batch of more than 10 requests is rejected wholesale with a 400
validation error, the store untouched and the outcome independent of the
llm and retriever (no pipeline stage runs); a batch of at most 10 requests
yields exactly one response per request in input order, each echoing its
request's question and session id, with status "error" exactly when that
item's pipeline call (on the store as threaded through the earlier items)
failed and "success" when it succeeded — later items are processed either
way. -/
theorem batch_contract (llm : Llm) (retr : Retriever) (store : Store)
    (requests : List QueryRequest) :
    (requests.length > 10 →
      batch_chat llm retr store requests
        = (Except.error
            { status_code := 400,
              detail := "Batch size cannot exceed 10 questions" }, store)
      ∧ ∀ (llm' : Llm) (retr' : Retriever),
          batch_chat llm retr store requests
            = batch_chat llm' retr' store requests)
    ∧ (requests.length ≤ 10 →
      (batch_chat llm retr store requests).1
          = Except.ok (batch_loop llm retr requests store).1
      ∧ (batch_loop llm retr requests store).1.length = requests.length
      ∧ ∀ (i : Nat) (req0 : QueryRequest), requests[i]? = some req0 →
          ∃ resp, (batch_loop llm retr requests store).1[i]? = some resp
            ∧ resp.question = req0.question
            ∧ resp.session_id = req0.session_id
            ∧ resp.status
                = (match (execute_user_query llm retr
                    (batch_loop llm retr (requests.take i) store).2
                    req0.question).1 with
                   | Except.ok _ => "success"
                   | Except.error _ => "error")) := by
  constructor
  · intro hgt
    exact ⟨by simp [batch_chat, hgt], fun llm' retr' => by simp [batch_chat, hgt]⟩
  · intro hle
    have hnot : ¬ requests.length > 10 := Nat.not_lt.mpr hle
    refine ⟨by simp [batch_chat, hnot],
      batch_loop_length llm retr requests store, ?_⟩
    intro i req0 hreq
    refine ⟨(batch_item llm retr req0
        (batch_loop llm retr (requests.take i) store).2).1,
      batch_loop_get llm retr requests store i req0 hreq, ?_, ?_, ?_⟩
    · exact (batch_item_fields llm retr req0 _).1
    · exact (batch_item_fields llm retr req0 _).2.1
    · exact (batch_item_fields llm retr req0 _).2.2.2

/-- Witness for `batch_contract`: a batch of 11 requests is rejected with
the 400 validation error, the store left untouched. -/
theorem batch_contract_witness :
    batch_chat (fun _ => Except.ok "A") (fun _ => Except.ok [])
        (fun _ => none)
        (List.replicate 11 ({ question := "q", session_id := none } : QueryRequest))
      = (Except.error
          { status_code := 400,
            detail := "Batch size cannot exceed 10 questions" },
         fun _ => none) :=
  ((batch_contract (fun _ => Except.ok "A") (fun _ => Except.ok [])
    (fun _ => none)
    (List.replicate 11 ({ question := "q", session_id := none } : QueryRequest))).1
    (by decide)).1

/-- C6: an empty or whitespace-only question is rejected with a validation
error before any pipeline stage or external call runs, by the /chat route
(pydantic 422 for the empty string, the handler's strip check with 400
otherwise) and by the /chatbot handler: the checkpoint store is returned
untouched (no conversation state read or written) and the outcome does not
depend on the llm or the retriever. -/
theorem empty_question_rejected (llm : Llm) (retr : Retriever) (store : Store)
    (question : String) (sid : Option String)
    (hw : py_strip question = "") :
    ((chat_endpoint llm retr store question sid).2 = store
      ∧ ∃ e, (chat_endpoint llm retr store question sid).1 = Except.error e
          ∧ (e.status_code = 400 ∨ e.status_code = 422))
    ∧ chatbot_endpoint llm retr store (some question) sid none
        = (ChatbotResult.failure "Question is required"
            "Please provide a question to ask about Dev", store)
    ∧ (∀ (llm' : Llm) (retr' : Retriever),
        chat_endpoint llm retr store question sid
          = chat_endpoint llm' retr' store question sid
        ∧ chatbot_endpoint llm retr store (some question) sid none
          = chatbot_endpoint llm' retr' store (some question) sid none) := by
  have hbot : chatbot_endpoint llm retr store (some question) sid none
      = (ChatbotResult.failure "Question is required"
          "Please provide a question to ask about Dev", store) := by
    simp [chatbot_endpoint, hw]
  by_cases h1 : question.length = 0 ∨ 1000 < question.length
  · refine ⟨⟨by simp [chat_endpoint, h1], ?_⟩, hbot, ?_⟩
    · exact ⟨{ status_code := 422,
               detail := "String should have at least 1 character" },
        by simp [chat_endpoint, h1], Or.inr rfl⟩
    · intro llm' retr'
      constructor
      · simp [chat_endpoint, h1]
      · rw [hbot]
        simp [chatbot_endpoint, hw]
  · refine ⟨⟨?_, ?_⟩, hbot, ?_⟩
    · simp [chat_endpoint, h1, chat_with_dev, hw]
    · exact ⟨{ status_code := 400, detail := "Question cannot be empty" },
        by simp [chat_endpoint, h1, chat_with_dev, hw], Or.inl rfl⟩
    · intro llm' retr'
      constructor
      · simp [chat_endpoint, h1, chat_with_dev, hw]
      · rw [hbot]
        simp [chatbot_endpoint, hw]

/-- Witness for `empty_question_rejected`: a whitespace-only question is
rejected by /chatbot with the store untouched. -/
theorem empty_question_rejected_witness :
    chatbot_endpoint (fun _ => Except.ok "A") (fun _ => Except.ok [])
        (fun _ => none) (some "   ") none none
      = (ChatbotResult.failure "Question is required"
          "Please provide a question to ask about Dev", fun _ => none) :=
  (empty_question_rejected (fun _ => Except.ok "A") (fun _ => Except.ok [])
    (fun _ => none) "   " none (by decide)).2.1

/-- C1 fails on the code: `execute_user_query` hardcodes the graph thread id
"abc123" and the /chat handler never forwards the caller's session id, so a
turn submitted under session id "t1" persists nothing under key "t1" and
writes the shared "abc123" state instead, and a following turn under the
distinct session id "t2" reads and extends the history containing "t1"'s
turn — one caller's turn alters the state the other observes. -/
theorem caller_thread_id_counterexample :
    ((chat_with_dev (fun _ => Except.ok "A") (fun _ => Except.ok [])
        (fun _ => none) { question := "Q1", session_id := some "t1" }).2 "t1"
      = none)
    ∧ ((chat_with_dev (fun _ => Except.ok "A") (fun _ => Except.ok [])
        (fun _ => none) { question := "Q1", session_id := some "t1" }).2 "abc123"
      ≠ none)
    ∧ thread_history
        ((chat_with_dev (fun _ => Except.ok "A") (fun _ => Except.ok [])
          (fun _ => none) { question := "Q1", session_id := some "t1" }).2)
        "abc123"
      = [HumanMessage "Q1", AIMessage "A"]
    ∧ ((chat_with_dev (fun _ => Except.ok "A") (fun _ => Except.ok [])
        ((chat_with_dev (fun _ => Except.ok "A") (fun _ => Except.ok [])
          (fun _ => none) { question := "Q1", session_id := some "t1" }).2)
        { question := "Q2", session_id := some "t2" }).2 "t2"
      = none)
    ∧ thread_history
        ((chat_with_dev (fun _ => Except.ok "A") (fun _ => Except.ok [])
          ((chat_with_dev (fun _ => Except.ok "A") (fun _ => Except.ok [])
            (fun _ => none) { question := "Q1", session_id := some "t1" }).2)
          { question := "Q2", session_id := some "t2" }).2)
        "abc123"
      = [HumanMessage "Q1", AIMessage "A", HumanMessage "Q2", AIMessage "A"] := by
  decide

/-- C1 amended: every call to the query entrypoint executes under the single
hardcoded graph thread "abc123", whatever session id the caller supplies:
the conversation state read and written is the one keyed by "abc123", every
other thread key is left untouched, and the resulting store does not depend
on the caller's session id — all sessions share one conversation state. -/
theorem query_entrypoint_fixed_thread (llm : Llm) (retr : Retriever)
    (store : Store) (q : String) (sid sid' : Option String) :
    (∀ t, t ≠ "abc123" → (execute_user_query llm retr store q).2 t = store t)
    ∧ (∀ t, t ≠ "abc123" →
        (chat_with_dev llm retr store { question := q, session_id := sid }).2 t
          = store t)
    ∧ (chat_with_dev llm retr store { question := q, session_id := sid }).2
        = (chat_with_dev llm retr store { question := q, session_id := sid' }).2 := by
  have hexec : ∀ t, t ≠ "abc123" →
      (execute_user_query llm retr store q).2 t = store t := by
    intro t ht
    have h2 : (execute_user_query llm retr store q).2
        = (app_invoke llm retr store "abc123" q).2 := rfl
    rw [h2]
    rcases app_invoke_spec llm retr store "abc123" q with
      ⟨e, _, heq⟩ | ⟨upd, _, heq⟩
    · simp [heq, store_put, ht]
    · simp [heq, store_put, ht]
  refine ⟨hexec, ?_, ?_⟩
  · intro t ht
    by_cases hs : py_strip q = ""
    · simp [chat_with_dev, hs]
    · rcases hp : execute_user_query llm retr store q with ⟨r, s⟩
      have hsnd : s = (execute_user_query llm retr store q).2 := by rw [hp]
      cases r with
      | error e =>
          simp only [chat_with_dev, hs, if_neg hs, hp]
          rw [hsnd]
          exact hexec t ht
      | ok answer =>
          by_cases hans : answer = "" <;>
            simp only [chat_with_dev, hs, if_neg hs, hp, hans, if_pos, if_neg,
              if_true, if_false] <;>
            (rw [hsnd]; exact hexec t ht)
  · by_cases hs : py_strip q = ""
    · simp [chat_with_dev, hs]
    · rcases hp : execute_user_query llm retr store q with ⟨r, s⟩
      cases r with
      | error e => simp [chat_with_dev, hs, hp]
      | ok answer =>
          by_cases hans : answer = "" <;> simp [chat_with_dev, hs, hp, hans]

/-- Witness for `query_entrypoint_fixed_thread`: a committed turn leaves an
unrelated thread key untouched. -/
theorem query_entrypoint_fixed_thread_witness :
    (execute_user_query (fun _ => Except.ok "A") (fun _ => Except.ok [])
      (fun _ => none) "Q").2 "t9" = none :=
  (query_entrypoint_fixed_thread (fun _ => Except.ok "A")
    (fun _ => Except.ok []) (fun _ => none) "Q" none none).1 "t9" (by decide)

end DevRAG
